import Mathlib

/-!
# LinkedIn post lifecycle wrapper and token issuer

A shallow embedding of `src/services/linkedinService.js` and
`src/utils/generateToken.js`.

Modelling conventions.

* JavaScript values that the code inspects by truthiness or by property name are
  values of `JsVal`; plain objects are association lists `JsObj`, and reading a
  property that an object does not have yields `undefined`.
* The remote publishing API is an arbitrary deterministic responder `Remote`: it
  sees the requests issued so far and the current request and answers with a
  response or a rejection.  Every operation threads the list of requests issued so
  far (the trace) and returns it together with its result, also when it throws.
* `try { ... } catch (error) { throw new Error(error.response?.data?.message || fb) }`
  is `catchRethrow fb`.
* Console output does not influence control flow or the requests issued and is left
  out.  String parameters documented as `{string}` are `String`; an argument that
  may be missing is `Option String` with `none` for `undefined`.
* Strings are character sequences.  The patterns the code searches for are ASCII, so
  prefix tests and first-occurrence replacement agree with their UTF-16 code-unit
  versions.  Numbers are integers; only their truthiness is observed.
* The signer `jwt.sign` is an external library: it is a parameter of `generateToken`,
  and the arguments of every call made to it are recorded.
-/

set_option autoImplicit false

namespace LinkedinBot

/-! ## JavaScript values -/

/-- Primitive JavaScript values that occur as property values. -/
inductive JsVal where
  | undefined
  | null
  | bool (b : Bool)
  | num (n : Int)
  | str (s : String)
  deriving DecidableEq, Repr

/-- Truthiness of a value, as tested by `!v` and `v || w`. -/
def JsVal.truthy : JsVal → Bool
  | .undefined => false
  | .null => false
  | .bool b => b
  | .num n => n != 0
  | .str s => s != ""

/-- Plain JavaScript object with primitive property values. -/
abbrev JsObj := List (String × JsVal)

/-- Property read `o.k`: the value stored under `k`, or `undefined`. -/
def getProp (o : JsObj) (k : String) : JsVal :=
  match o.lookup k with
  | some v => v
  | none => .undefined

/-- Value of an optional string argument (`none` is `undefined`). -/
def ofArg : Option String → JsVal
  | none => .undefined
  | some s => .str s

/-- Template-literal interpolation of an environment variable. -/
def interpolate : Option String → String
  | none => "undefined"
  | some s => s

/-! ## String primitives -/

/-- JavaScript `s.startsWith(p)`. -/
def startsWith (s p : String) : Bool :=
  p.data.isPrefixOf s.data

/-- Replace the first occurrence of `pat` by `rep`, on character lists. -/
def replaceFirst (pat rep : List Char) : List Char → List Char
  | [] => if pat = [] then rep else []
  | c :: cs =>
    if pat.isPrefixOf (c :: cs) then rep ++ (c :: cs).drop pat.length
    else c :: replaceFirst pat rep cs

/-- JavaScript `s.replace(pat, rep)` for a string pattern and a replacement string without
`$` patterns (the code only replaces by the empty string). -/
def replace (s pat rep : String) : String :=
  ⟨replaceFirst pat.data rep.data s.data⟩

/-- White space and line terminators removed by `String.prototype.trim`. -/
def isTrimChar (c : Char) : Bool :=
  c.toNat ∈ [0x09, 0x0A, 0x0B, 0x0C, 0x0D, 0x20, 0xA0, 0x1680,
    0x2000, 0x2001, 0x2002, 0x2003, 0x2004, 0x2005, 0x2006, 0x2007, 0x2008, 0x2009, 0x200A,
    0x2028, 0x2029, 0x202F, 0x205F, 0x3000, 0xFEFF]

/-- JavaScript `s.trim()`. -/
def trim (s : String) : String :=
  ⟨((s.data.dropWhile isTrimChar).reverse.dropWhile isTrimChar).reverse⟩

/-! ## Errors, requests, the remote -/

/-- Thrown value: its `message` and, for a rejected HTTP call, the
`response.data.message` of the error body when there is one. -/
structure JsError where
  message : String
  responseMessage : Option String
  deriving DecidableEq, Repr

/-- JavaScript `new Error(m)`: an error without a `response` property. -/
def newError (m : String) : JsError :=
  { message := m, responseMessage := none }

/-- The expression `error.response?.data?.message || fallback`. -/
def messageOr (e : JsError) (fallback : String) : String :=
  match e.responseMessage with
  | some m => if m = "" then fallback else m
  | none => fallback

/-- Process environment read by the code. -/
structure Env where
  LINKEDIN_COMPANY_ID : Option String
  LINKEDIN_USER_ID : Option String
  JWT_SECRET : Option String
  deriving DecidableEq, Repr

/-- Payload of a UGC post as built by `buildPost`. -/
structure Payload where
  author : String
  lifecycleState : String
  shareCommentaryText : String
  shareMediaCategory : String
  memberNetworkVisibility : String
  deriving DecidableEq, Repr

/-- Request sent through the shared HTTP client. -/
inductive Request where
  | post (path : String) (payload : Payload)
  | delete (path : String)
  deriving DecidableEq, Repr

/-- Fulfilled HTTP response; `data` is the parsed body when there is one. -/
structure Response where
  data : Option JsObj
  deriving DecidableEq, Repr

/-- Remote API: given the requests issued so far and the current request, a response
or a rejection. -/
abbrev Remote := List Request → Request → Except JsError Response

/-- Result of running an operation: the value returned or the error thrown, and the
requests issued up to that point. -/
structure Outcome (α : Type) where
  result : Except JsError α
  trace : List Request

/-- The `catch` block shared by the service methods: any error thrown in the body
is replaced by `new Error(error.response?.data?.message || fallback)`. -/
def catchRethrow {α : Type} (fallback : String) (body : Outcome α) : Outcome α :=
  match body.result with
  | .ok v => { result := .ok v, trace := body.trace }
  | .error e => { result := .error (newError (messageOr e fallback)), trace := body.trace }

/-- One awaited call `api.post(path, payload)` or `api.delete(path)`. -/
def send (remote : Remote) (tr : List Request) (req : Request) : Outcome Response :=
  { result := remote tr req, trace := tr ++ [req] }

/-! ## linkedinService.js -/

/-- Source function `buildPost(content, isCompanyPost)`. -/
def buildPost (env : Env) (content : String) (isCompanyPost : Bool) : Payload :=
  { author :=
      if isCompanyPost then "urn:li:organization:" ++ interpolate env.LINKEDIN_COMPANY_ID
      else "urn:li:person:" ++ interpolate env.LINKEDIN_USER_ID
    lifecycleState := "PUBLISHED"
    shareCommentaryText := content
    shareMediaCategory := "NONE"
    memberNetworkVisibility := "PUBLIC" }

/-- Source method `createPost(content, isCompanyPost)`. -/
def createPost (env : Env) (remote : Remote) (tr : List Request) (content : String)
    (isCompanyPost : Bool) : Outcome JsObj :=
  catchRethrow "Failed to create post" <|
    let payload := buildPost env content isCompanyPost
    let sent := send remote tr (Request.post "/ugcPosts" payload)
    match sent.result with
    | .error e => { result := .error e, trace := sent.trace }
    | .ok response =>
      match response.data with
      | none =>
        { result := .error (newError "LinkedIn response does not contain a post ID."),
          trace := sent.trace }
      | some data =>
        if !(getProp data "id").truthy then
          { result := .error (newError "LinkedIn response does not contain a post ID."),
            trace := sent.trace }
        else
          { result := .ok [("success", .bool true),
              ("message", .str "Post created successfully on LinkedIn"),
              ("linkedInId", getProp data "id")],
            trace := sent.trace }

/-- Endpoint selection of `deletePost` (the `if / else if / else` on the prefix):
`none` is the `Invalid LinkedIn post ID format` branch. -/
def deleteEndpoint (postId : String) : Option String :=
  if startsWith postId "urn:li:ugcPost:" then
    some ("/ugcPosts/" ++ replace postId "urn:li:ugcPost:" "")
  else if startsWith postId "urn:li:share:" then
    some ("/shares/" ++ replace postId "urn:li:share:" "")
  else none

/-- Source method `deletePost(postId)`. -/
def deletePost (remote : Remote) (tr : List Request) (postId : Option String) :
    Outcome JsObj :=
  catchRethrow "Failed to delete LinkedIn post" <|
    match postId with
    | none => { result := .error (newError "No post ID provided."), trace := tr }
    | some id =>
      if !(JsVal.str id).truthy then
        { result := .error (newError "No post ID provided."), trace := tr }
      else
        match deleteEndpoint id with
        | none =>
          { result := .error (newError "Invalid LinkedIn post ID format"), trace := tr }
        | some endpoint =>
          let sent := send remote tr (Request.delete endpoint)
          match sent.result with
          | .error e => { result := .error e, trace := sent.trace }
          | .ok _ =>
            { result := .ok [("success", .bool true),
                ("message", .str "Post deleted successfully from LinkedIn")],
              trace := sent.trace }

/-- Source method `updatePost(postId, newContent, isCompanyPost)`. -/
def updatePost (env : Env) (remote : Remote) (tr : List Request)
    (postId newContent : Option String) (isCompanyPost : Bool) : Outcome JsObj :=
  catchRethrow "Failed to update the LinkedIn post" <|
    match newContent with
    | none => { result := .error (newError "Post content cannot be empty."), trace := tr }
    | some content =>
      if !(JsVal.str content).truthy || trim content = "" then
        { result := .error (newError "Post content cannot be empty."), trace := tr }
      else
        let created := createPost env remote tr content isCompanyPost
        match created.result with
        | .error e => { result := .error e, trace := created.trace }
        | .ok newPost =>
          if !(getProp newPost "success").truthy || !(getProp newPost "linkedInId").truthy then
            { result := .error (newError "New post creation failed, skipping deletion."),
              trace := created.trace }
          else
            let deleted := deletePost remote created.trace postId
            match deleted.result with
            | .error e => { result := .error e, trace := deleted.trace }
            | .ok _ =>
              { result := .ok [("success", .bool true),
                  ("message", .str "Post updated successfully by creating new and deleting old"),
                  ("newPostId", getProp newPost "linkedInId"),
                  ("deletedPostId", ofArg postId)],
                trace := deleted.trace }

/-- Source method `postToLinkedIn(content, isCompanyPost)`. -/
def postToLinkedIn (env : Env) (remote : Remote) (tr : List Request) (content : String)
    (isCompanyPost : Bool) : Outcome JsObj :=
  catchRethrow "Failed to post to LinkedIn" <|
    let created := createPost env remote tr content isCompanyPost
    match created.result with
    | .error e => { result := .error e, trace := created.trace }
    | .ok postResponse =>
      { result := .ok [("success", .bool true),
          ("message", .str "Text post published successfully on LinkedIn"),
          ("linkedInId", getProp postResponse "id")],
        trace := created.trace }

/-! ## generateToken.js -/

/-- Arguments of one `jwt.sign(payload, secret, { expiresIn })` call. -/
structure SignCall where
  payload : JsObj
  secret : String
  expiresIn : String
  deriving DecidableEq, Repr

/-- Result of `generateToken`: the token returned or the error thrown, and the calls
made to the signer. -/
structure TokenOutcome where
  result : Except JsError String
  signCalls : List SignCall

/-- Source function `generateToken(user)`; `sign` is the external `jwt.sign`. -/
def generateToken (env : Env) (sign : SignCall → String) (user : JsObj) : TokenOutcome :=
  match env.JWT_SECRET with
  | none => { result := .error (newError "JWT_SECRET is not defined"), signCalls := [] }
  | some secret =>
    if !(JsVal.str secret).truthy then
      { result := .error (newError "JWT_SECRET is not defined"), signCalls := [] }
    else
      let call : SignCall :=
        { payload := [("id", getProp user "_id"), ("email", getProp user "email"),
            ("userName", getProp user "userName")]
          secret := secret
          expiresIn := "1d" }
      { result := .ok (sign call), signCalls := [call] }

/-! ## Notions used in the statements -/

/-- The create request of `createPost`. -/
def createRequest (env : Env) (content : String) (isCompanyPost : Bool) : Request :=
  Request.post "/ugcPosts" (buildPost env content isCompanyPost)

/-- The object `createPost` returns for the remote id `id`. -/
def createdResult (id : JsVal) : JsObj :=
  [("success", .bool true), ("message", .str "Post created successfully on LinkedIn"),
    ("linkedInId", id)]

/-- The object `updatePost` returns on full success. -/
def updatedResult (newId : JsVal) (postId : Option String) : JsObj :=
  [("success", .bool true),
    ("message", .str "Post updated successfully by creating new and deleting old"),
    ("newPostId", newId), ("deletedPostId", ofArg postId)]

/-- Requests that a run of `updatePost` issues when its create step succeeds: the
create request, then the delete selected by `postId` when `postId` selects one. -/
def requestsAfterCreate (env : Env) (postId : Option String) (content : String)
    (isCompanyPost : Bool) : List Request :=
  match postId.bind deleteEndpoint with
  | none => [createRequest env content isCompanyPost]
  | some ep => [createRequest env content isCompanyPost, Request.delete ep]

/-! ## Sample environments and remotes -/

/-- Environment with every variable set. -/
def sampleEnv : Env :=
  { LINKEDIN_COMPANY_ID := some "777", LINKEDIN_USER_ID := some "abc", JWT_SECRET := some "s3cret" }

/-- Remote that fulfils every request; a create is answered with the body `{ id }`. -/
def acceptAll (id : JsVal) : Remote := fun _ req =>
  match req with
  | .post _ _ => .ok { data := some [("id", id)] }
  | .delete _ => .ok { data := none }

/-- Remote that rejects every request with a transport error (no response). -/
def rejectAll : Remote := fun _ _ =>
  .error { message := "Network Error", responseMessage := none }

/-- Remote that fulfils a create with the body `{ id }` and rejects every delete
with the error body message `msg`. -/
def rejectDeletes (id : JsVal) (msg : String) : Remote := fun _ req =>
  match req with
  | .post _ _ => .ok { data := some [("id", id)] }
  | .delete _ => .error { message := "Request failed with status code 404",
                          responseMessage := some msg }

/-- Remote that fulfils a create with a body that has no `id` property. -/
def acceptWithoutId : Remote := fun _ req =>
  match req with
  | .post _ _ => .ok { data := some [("status", .num 201)] }
  | .delete _ => .ok { data := none }

/-- Signer stub used to run `generateToken` on concrete inputs. -/
def sampleSign (call : SignCall) : String :=
  "signed:" ++ call.secret ++ ":" ++ call.expiresIn

/-! ## String lemmas -/

theorem startsWith_append (p s : String) : startsWith (p ++ s) p = true := by
  simp [startsWith]

theorem replaceFirst_append (p s : List Char) : replaceFirst p [] (p ++ s) = s := by
  cases h : p ++ s with
  | nil =>
    have hp : p = [] := (List.append_eq_nil.mp h).1
    have hs : s = [] := (List.append_eq_nil.mp h).2
    simp [replaceFirst, hs]
  | cons c cs =>
    have hpre : p.isPrefixOf (c :: cs) = true := by
      rw [← h]; simp
    simp only [replaceFirst, hpre, if_true, List.nil_append]
    rw [← h, List.drop_left]

theorem replace_append (p s : String) : replace (p ++ s) p "" = s := by
  simp [replace, replaceFirst_append]

theorem startsWith_share_ugc (s : String) :
    startsWith ("urn:li:share:" ++ s) "urn:li:ugcPost:" = false := by
  simp [startsWith, List.isPrefixOf]

theorem deleteEndpoint_ugc (s : String) :
    deleteEndpoint ("urn:li:ugcPost:" ++ s) = some ("/ugcPosts/" ++ s) := by
  simp [deleteEndpoint, startsWith_append, replace_append]

theorem deleteEndpoint_share (s : String) :
    deleteEndpoint ("urn:li:share:" ++ s) = some ("/shares/" ++ s) := by
  simp [deleteEndpoint, startsWith_append, replace_append, startsWith_share_ugc]

theorem deleteEndpoint_empty : deleteEndpoint "" = none := by
  simp [deleteEndpoint, startsWith, List.isPrefixOf]

theorem deleteEndpoint_none_of_unrecognized (id : String)
    (h1 : startsWith id "urn:li:ugcPost:" = false) (h2 : startsWith id "urn:li:share:" = false) :
    deleteEndpoint id = none := by
  simp [deleteEndpoint, h1, h2]

/-! ## deletePost -/

theorem truthy_str (s : String) : (JsVal.str s).truthy = !decide (s = "") := by
  by_cases h : s = "" <;> simp [JsVal.truthy, bne, h]

/-- Requests issued by `deletePost`: one delete to the selected endpoint, or none. -/
theorem deletePost_trace (remote : Remote) (tr : List Request) (postId : Option String) :
    (deletePost remote tr postId).trace =
      match postId.bind deleteEndpoint with
      | none => tr
      | some ep => tr ++ [Request.delete ep] := by
  cases postId with
  | none => simp [deletePost, catchRethrow]
  | some id =>
    by_cases hid : id = ""
    · subst hid
      simp [deletePost, catchRethrow, truthy_str, deleteEndpoint_empty]
    · cases hep : deleteEndpoint id with
      | none => simp [deletePost, catchRethrow, truthy_str, hid, hep]
      | some ep =>
        cases hr : remote tr (Request.delete ep) <;>
          simp [deletePost, catchRethrow, truthy_str, hid, hep, send, hr]

/-- An identifier without a selected endpoint makes `deletePost` throw the generic
delete error. -/
theorem deletePost_error_of_no_endpoint (remote : Remote) (tr : List Request)
    (postId : Option String) (h : postId.bind deleteEndpoint = none) :
    (deletePost remote tr postId).result
      = .error (newError "Failed to delete LinkedIn post") := by
  cases postId with
  | none => simp [deletePost, catchRethrow, messageOr, newError]
  | some id =>
    by_cases hid : id = ""
    · subst hid
      simp [deletePost, catchRethrow, truthy_str, messageOr, newError]
    · have hep : deleteEndpoint id = none := by simpa using h
      simp [deletePost, catchRethrow, truthy_str, hid, hep, messageOr, newError]

/-- C1: for every string `s`, `deletePost("urn:li:ugcPost:" ++ s)` issues exactly one
request, a DELETE to `"/ugcPosts/" ++ s`, and `deletePost("urn:li:share:" ++ s)` issues
exactly one request, a DELETE to `"/shares/" ++ s`, whatever the remote answers and
also when `s` contains the prefix text again; `"urn:li:ugcPost:1234"` gives
`"/ugcPosts/1234"` and `"urn:li:share:5678"` gives `"/shares/5678"`. -/
theorem deletePost_issues_one_delete (remote : Remote) (tr : List Request) (s : String) :
    (deletePost remote tr (some ("urn:li:ugcPost:" ++ s))).trace
        = tr ++ [Request.delete ("/ugcPosts/" ++ s)]
    ∧ (deletePost remote tr (some ("urn:li:share:" ++ s))).trace
        = tr ++ [Request.delete ("/shares/" ++ s)]
    ∧ (deletePost remote [] (some "urn:li:ugcPost:1234")).trace
        = [Request.delete "/ugcPosts/1234"]
    ∧ (deletePost remote [] (some "urn:li:share:5678")).trace
        = [Request.delete "/shares/5678"]
    ∧ (deletePost remote [] (some "urn:li:share:urn:li:share:5")).trace
        = [Request.delete "/shares/urn:li:share:5"] := by
  have hu : ∀ (t : List Request) (x : String),
      (deletePost remote t (some ("urn:li:ugcPost:" ++ x))).trace
        = t ++ [Request.delete ("/ugcPosts/" ++ x)] := by
    intro t x
    rw [deletePost_trace]
    simp [deleteEndpoint_ugc]
  have hs : ∀ (t : List Request) (x : String),
      (deletePost remote t (some ("urn:li:share:" ++ x))).trace
        = t ++ [Request.delete ("/shares/" ++ x)] := by
    intro t x
    rw [deletePost_trace]
    simp [deleteEndpoint_share]
  exact ⟨hu tr s, hs tr s, hu [] "1234", hs [] "5678", hs [] "urn:li:share:5"⟩

/-- C2: for every postId that starts with neither `"urn:li:ugcPost:"` nor
`"urn:li:share:"` (the empty and the missing identifier included), `deletePost`
throws an error and issues no request. -/
theorem deletePost_unrecognized_fails (remote : Remote) (tr : List Request)
    (postId : Option String)
    (h : ∀ id, postId = some id →
      startsWith id "urn:li:ugcPost:" = false ∧ startsWith id "urn:li:share:" = false) :
    (∃ e, (deletePost remote tr postId).result = .error e)
    ∧ (deletePost remote tr postId).trace = tr := by
  have hnone : postId.bind deleteEndpoint = none := by
    cases postId with
    | none => rfl
    | some id =>
      have h12 := h id rfl
      simpa using deleteEndpoint_none_of_unrecognized id h12.1 h12.2
  refine ⟨⟨_, deletePost_error_of_no_endpoint remote tr postId hnone⟩, ?_⟩
  rw [deletePost_trace, hnone]

/-- Witness for C2: an identifier with another prefix, run against a remote that
would accept any request. -/
theorem deletePost_unrecognized_fails_witness :
    (∀ id, some "urn:li:activity:42" = some id →
      startsWith id "urn:li:ugcPost:" = false ∧ startsWith id "urn:li:share:" = false)
    ∧ (∃ e, (deletePost (acceptAll (.str "urn:li:share:1")) []
          (some "urn:li:activity:42")).result = .error e)
    ∧ (deletePost (acceptAll (.str "urn:li:share:1")) [] (some "urn:li:activity:42")).trace
        = [] :=
  have hyp : ∀ id, some "urn:li:activity:42" = some id →
      startsWith id "urn:li:ugcPost:" = false ∧ startsWith id "urn:li:share:" = false := by
    intro id hid
    cases hid
    exact ⟨by decide, by decide⟩
  ⟨hyp, deletePost_unrecognized_fails (acceptAll (.str "urn:li:share:1")) []
    (some "urn:li:activity:42") hyp⟩

/-- C10 (evaluation of the code): for the non-empty identifier `"urn:li:activity:42"`,
whose prefix is not recognised, the error that reaches the caller of `deletePost`
carries the generic message `Failed to delete LinkedIn post`, not
`Invalid LinkedIn post ID format`; it is the same error as for a missing identifier
and as for a remote rejection without an error body. -/
theorem deletePost_invalid_format_message_replaced :
    (deletePost (acceptAll (.str "urn:li:share:1")) [] (some "urn:li:activity:42")).result
        = .error (newError "Failed to delete LinkedIn post")
    ∧ (deletePost (acceptAll (.str "urn:li:share:1")) [] none).result
        = .error (newError "Failed to delete LinkedIn post")
    ∧ (deletePost rejectAll [] (some "urn:li:ugcPost:1234")).result
        = .error (newError "Failed to delete LinkedIn post")
    ∧ newError "Failed to delete LinkedIn post" ≠ newError "Invalid LinkedIn post ID format" := by
  refine ⟨rfl, rfl, rfl, by decide⟩

/-! ## createPost and postToLinkedIn -/

/-- Every run of `createPost` issues exactly its one create request. -/
theorem createPost_trace (env : Env) (remote : Remote) (tr : List Request) (content : String)
    (isCompanyPost : Bool) :
    (createPost env remote tr content isCompanyPost).trace
      = tr ++ [createRequest env content isCompanyPost] := by
  unfold createPost createRequest catchRethrow send
  dsimp only
  split <;> rename_i heq <;> split at heq <;> (try split at heq) <;> (try split at heq) <;>
    simp_all

theorem createPost_ok_of_id (env : Env) (remote : Remote) (tr : List Request)
    (content : String) (isCompanyPost : Bool) (data : JsObj)
    (hresp : remote tr (createRequest env content isCompanyPost) = .ok { data := some data })
    (hid : (getProp data "id").truthy = true) :
    (createPost env remote tr content isCompanyPost).result
      = .ok (createdResult (getProp data "id")) := by
  unfold createRequest at hresp
  simp [createPost, catchRethrow, send, hresp, hid, createdResult]

theorem createPost_ok_inv (env : Env) (remote : Remote) (tr : List Request)
    (content : String) (isCompanyPost : Bool) (v : JsObj)
    (h : (createPost env remote tr content isCompanyPost).result = .ok v) :
    ∃ data, remote tr (createRequest env content isCompanyPost) = .ok { data := some data }
      ∧ (getProp data "id").truthy = true ∧ v = createdResult (getProp data "id") := by
  unfold createPost catchRethrow send at h
  unfold createRequest
  dsimp only at h
  cases hr : remote tr (Request.post "/ugcPosts" (buildPost env content isCompanyPost)) with
  | error e => simp [hr] at h
  | ok resp =>
    obtain ⟨d⟩ := resp
    cases d with
    | none => simp [hr] at h
    | some data =>
      by_cases hid : (getProp data "id").truthy = true
      · refine ⟨data, rfl, hid, ?_⟩
        simp [hr, hid] at h
        simp [createdResult, ← h]
      · simp [hr, hid] at h

/-- C6 (as stated, refuted): a fulfilled create whose response object contains an
`id` field holding the empty string makes `createPost` throw `Failed to create post`
instead of returning a success result. -/
theorem createPost_empty_id_field_throws :
    (∃ data, acceptAll (.str "") [] (createRequest sampleEnv "hello" false)
          = .ok { data := some data }
        ∧ data.lookup "id" = some (.str ""))
    ∧ (createPost sampleEnv (acceptAll (.str "")) [] "hello" false).result
        = .error (newError "Failed to create post") :=
  ⟨⟨[("id", .str "")], rfl, rfl⟩, rfl⟩

/-- C6 (amended): for every content and either author mode, `createPost` returns a
result with `success = true` and a truthy (non-empty) identifier equal to the remote
id whenever the remote create call is fulfilled with a response object whose `id` is
truthy (a non-empty string or a non-zero number), and throws in every other case:
rejected call, missing body, body without an `id`, or an `id` that is empty or
otherwise falsy. -/
theorem createPost_succeeds_iff_truthy_id (env : Env) (remote : Remote) (tr : List Request)
    (content : String) (isCompanyPost : Bool) :
    (∀ data, remote tr (createRequest env content isCompanyPost) = .ok { data := some data } →
        (getProp data "id").truthy = true →
        ∃ v, (createPost env remote tr content isCompanyPost).result = .ok v
          ∧ getProp v "success" = .bool true
          ∧ getProp v "linkedInId" = getProp data "id"
          ∧ (getProp v "linkedInId").truthy = true)
    ∧ ((¬ ∃ data, remote tr (createRequest env content isCompanyPost) = .ok { data := some data }
          ∧ (getProp data "id").truthy = true) →
        ∃ e, (createPost env remote tr content isCompanyPost).result = .error e) := by
  constructor
  · intro data hresp hid
    refine ⟨createdResult (getProp data "id"),
      createPost_ok_of_id env remote tr content isCompanyPost data hresp hid, ?_, ?_, ?_⟩
    · simp [createdResult, getProp, List.lookup]
    · simp [createdResult, getProp, List.lookup]
    · simpa [createdResult, getProp, List.lookup] using hid
  · intro hno
    cases hres : (createPost env remote tr content isCompanyPost).result with
    | error e => exact ⟨e, rfl⟩
    | ok v =>
      obtain ⟨data, hresp, hid, _⟩ := createPost_ok_inv env remote tr content isCompanyPost v hres
      exact absurd ⟨data, hresp, hid⟩ hno

/-- Witness for C6 (amended): a remote answering `{ id: "urn:li:share:99" }`. -/
theorem createPost_succeeds_iff_truthy_id_witness :
    ∃ v, (createPost sampleEnv (acceptAll (.str "urn:li:share:99")) [] "hello" true).result
          = .ok v
      ∧ getProp v "success" = .bool true
      ∧ getProp v "linkedInId" = getProp [("id", JsVal.str "urn:li:share:99")] "id"
      ∧ (getProp v "linkedInId").truthy = true :=
  (createPost_succeeds_iff_truthy_id sampleEnv (acceptAll (.str "urn:li:share:99")) []
    "hello" true).1 [("id", .str "urn:li:share:99")] rfl (by decide)

/-- C8 (evaluation of the code): `createPost` succeeds with the remote post id
`"urn:li:share:99"` under `linkedInId`, and `postToLinkedIn`, reading the property
`id` of that result, returns `success = true` with `linkedInId` undefined. -/
theorem postToLinkedIn_linkedInId_undefined :
    (createPost sampleEnv (acceptAll (.str "urn:li:share:99")) [] "hello" false).result
        = .ok (createdResult (.str "urn:li:share:99"))
    ∧ (postToLinkedIn sampleEnv (acceptAll (.str "urn:li:share:99")) [] "hello" false).result
        = .ok [("success", .bool true),
            ("message", .str "Text post published successfully on LinkedIn"),
            ("linkedInId", .undefined)] :=
  ⟨rfl, rfl⟩

/-! ## updatePost -/

theorem trim_empty : trim "" = "" := by decide

theorem ne_empty_of_trim_ne (content : String) (h : trim content ≠ "") : content ≠ "" := by
  intro hc
  exact h (hc ▸ trim_empty)

/-- Past the content guard, `updatePost` is the create step followed, on success, by the
delete step, under the shared `catch`. -/
theorem updatePost_nonblank (env : Env) (remote : Remote) (tr : List Request)
    (postId : Option String) (content : String) (isCompanyPost : Bool)
    (hc : trim content ≠ "") :
    updatePost env remote tr postId (some content) isCompanyPost =
      catchRethrow "Failed to update the LinkedIn post"
        (match (createPost env remote tr content isCompanyPost).result with
         | .error e => { result := .error e,
                         trace := tr ++ [createRequest env content isCompanyPost] }
         | .ok newPost =>
           match (deletePost remote (tr ++ [createRequest env content isCompanyPost])
              postId).result with
           | .error e =>
             { result := .error e,
               trace := (deletePost remote (tr ++ [createRequest env content isCompanyPost])
                 postId).trace }
           | .ok _ =>
             { result := .ok (updatedResult (getProp newPost "linkedInId") postId),
               trace := (deletePost remote (tr ++ [createRequest env content isCompanyPost])
                 postId).trace }) := by
  have hne := ne_empty_of_trim_ne content hc
  unfold updatePost
  simp only [truthy_str, hne, hc, decide_False, Bool.not_false, Bool.not_true, Bool.or_self,
    Bool.false_eq_true, if_false, createPost_trace]
  cases hres : (createPost env remote tr content isCompanyPost).result with
  | error e => rfl
  | ok newPost =>
    obtain ⟨data, _, hid, hv⟩ := createPost_ok_inv env remote tr content isCompanyPost newPost hres
    subst hv
    have h1 : (getProp (createdResult (getProp data "id")) "success").truthy = true := by
      simp [createdResult, getProp, List.lookup, JsVal.truthy]
    have h2 : (getProp (createdResult (getProp data "id")) "linkedInId").truthy = true := by
      simpa [createdResult, getProp, List.lookup] using hid
    simp only [h1, h2, Bool.not_true, Bool.or_self, Bool.false_eq_true, if_false]
    cases (deletePost remote (tr ++ [createRequest env content isCompanyPost]) postId).result <;>
      rfl

theorem exists_append_of_startsWith (s p : String) (h : startsWith s p = true) :
    ∃ x : String, s = p ++ x := by
  unfold startsWith at h
  rw [List.isPrefixOf_iff_prefix] at h
  obtain ⟨t, ht⟩ := h
  refine ⟨⟨t⟩, ?_⟩
  apply String.ext
  simp [ht]

theorem deleteEndpoint_some_inv (a ep : String) (h : deleteEndpoint a = some ep) :
    (∃ x, a = "urn:li:ugcPost:" ++ x ∧ ep = "/ugcPosts/" ++ x)
    ∨ (∃ x, a = "urn:li:share:" ++ x ∧ ep = "/shares/" ++ x) := by
  by_cases h1 : startsWith a "urn:li:ugcPost:" = true
  · obtain ⟨x, hx⟩ := exists_append_of_startsWith a _ h1
    subst hx
    rw [deleteEndpoint_ugc] at h
    exact Or.inl ⟨x, rfl, (Option.some.inj h).symm⟩
  · by_cases h2 : startsWith a "urn:li:share:" = true
    · obtain ⟨x, hx⟩ := exists_append_of_startsWith a _ h2
      subst hx
      rw [deleteEndpoint_share] at h
      exact Or.inr ⟨x, rfl, (Option.some.inj h).symm⟩
    · simp [deleteEndpoint, h1, h2] at h

theorem append_left_cancel_str (p x y : String) (h : p ++ x = p ++ y) : x = y := by
  have hd := congrArg String.data h
  simp only [String.data_append] at hd
  exact String.ext (List.append_cancel_left hd)

theorem ugc_path_ne_share_path (x y : String) : "/ugcPosts/" ++ x ≠ "/shares/" ++ y := by
  intro h
  have hd := congrArg String.data h
  simp at hd

/-- Distinct identifiers never select the same delete endpoint. -/
theorem deleteEndpoint_injective (a b ep : String) (ha : deleteEndpoint a = some ep)
    (hb : deleteEndpoint b = some ep) : a = b := by
  rcases deleteEndpoint_some_inv a ep ha with ⟨x, hax, hex⟩ | ⟨x, hax, hex⟩ <;>
    rcases deleteEndpoint_some_inv b ep hb with ⟨y, hby, hey⟩ | ⟨y, hby, hey⟩
  · have := append_left_cancel_str _ x y (hex.symm.trans hey)
    rw [hax, hby, this]
  · exact absurd (hex.symm.trans hey) (ugc_path_ne_share_path x y)
  · exact absurd (hey.symm.trans hex) (ugc_path_ne_share_path y x)
  · have := append_left_cancel_str _ x y (hex.symm.trans hey)
    rw [hax, hby, this]

theorem deletePost_ok_of_endpoint (remote : Remote) (tr : List Request) (id ep : String)
    (resp : Response) (hep : deleteEndpoint id = some ep)
    (hresp : remote tr (Request.delete ep) = .ok resp) :
    (deletePost remote tr (some id)).result
      = .ok [("success", .bool true),
          ("message", .str "Post deleted successfully from LinkedIn")] := by
  have hid : id ≠ "" := by
    intro h0
    rw [h0, deleteEndpoint_empty] at hep
    cases hep
  simp [deletePost, catchRethrow, truthy_str, hid, hep, send, hresp]

/-- C3: for every postId, every author mode and every newContent that is missing or
empty after trimming white space, `updatePost` throws an error and issues no request
(neither the create nor the delete). -/
theorem updatePost_blank_content_fails (env : Env) (remote : Remote) (tr : List Request)
    (postId newContent : Option String) (isCompanyPost : Bool)
    (h : ∀ c, newContent = some c → trim c = "") :
    (∃ e, (updatePost env remote tr postId newContent isCompanyPost).result = .error e)
    ∧ (updatePost env remote tr postId newContent isCompanyPost).trace = tr := by
  cases newContent with
  | none => simp [updatePost, catchRethrow]
  | some c =>
    have hc := h c rfl
    simp [updatePost, catchRethrow, hc]

/-- Witness for C3: content made of blanks, a tab and a line feed, with a valid postId
and a remote that would accept every request. -/
theorem updatePost_blank_content_fails_witness :
    (∀ c, some " \t\n " = some c → trim c = "")
    ∧ (∃ e, (updatePost sampleEnv (acceptAll (.str "new1")) [] (some "urn:li:share:5678")
          (some " \t\n ") true).result = .error e)
    ∧ (updatePost sampleEnv (acceptAll (.str "new1")) [] (some "urn:li:share:5678")
          (some " \t\n ") true).trace = [] :=
  have hyp : ∀ c, some " \t\n " = some c → trim c = "" := by
    intro c hc
    cases hc
    decide
  ⟨hyp, updatePost_blank_content_fails sampleEnv (acceptAll (.str "new1")) []
    (some "urn:li:share:5678") (some " \t\n ") true hyp⟩

/-- C4: for every postId and every non-blank newContent, if the create step of
`updatePost` fails (the remote create call is rejected, or its response carries no
id), then `updatePost` throws and the only request issued is the create request: no
DELETE is sent. -/
theorem updatePost_create_fails_no_delete (env : Env) (remote : Remote) (tr : List Request)
    (postId : Option String) (content : String) (isCompanyPost : Bool)
    (hc : trim content ≠ "")
    (hfail : ∃ e, (createPost env remote tr content isCompanyPost).result = .error e) :
    (∃ e, (updatePost env remote tr postId (some content) isCompanyPost).result = .error e)
    ∧ (updatePost env remote tr postId (some content) isCompanyPost).trace
        = tr ++ [createRequest env content isCompanyPost]
    ∧ ∀ path, Request.delete path ∉ [createRequest env content isCompanyPost] := by
  obtain ⟨e, he⟩ := hfail
  rw [updatePost_nonblank env remote tr postId content isCompanyPost hc, he]
  simp [catchRethrow, createRequest]

/-- Witness for C4: the create call is rejected by the remote, or fulfilled with a
body that has no id. -/
theorem updatePost_create_fails_no_delete_witness :
    ((∃ e, (updatePost sampleEnv rejectAll [] (some "urn:li:share:5678") (some "hello")
          false).result = .error e)
      ∧ (updatePost sampleEnv rejectAll [] (some "urn:li:share:5678") (some "hello")
          false).trace = [] ++ [createRequest sampleEnv "hello" false]
      ∧ ∀ path, Request.delete path ∉ [createRequest sampleEnv "hello" false])
    ∧ ((∃ e, (updatePost sampleEnv acceptWithoutId [] (some "urn:li:share:5678")
          (some "hello") false).result = .error e)
      ∧ (updatePost sampleEnv acceptWithoutId [] (some "urn:li:share:5678") (some "hello")
          false).trace = [] ++ [createRequest sampleEnv "hello" false]
      ∧ ∀ path, Request.delete path ∉ [createRequest sampleEnv "hello" false]) :=
  ⟨updatePost_create_fails_no_delete sampleEnv rejectAll [] (some "urn:li:share:5678") "hello"
      false (by decide) ⟨newError "Failed to create post", rfl⟩,
    updatePost_create_fails_no_delete sampleEnv acceptWithoutId [] (some "urn:li:share:5678")
      "hello" false (by decide) ⟨newError "Failed to create post", rfl⟩⟩

/-- C5: for every run of `updatePost` with non-blank newContent in which the create
step succeeds (result `newPost`, carrying the new id) and the delete of `postId` then
fails (unusable `postId` or rejected delete call), `updatePost` throws instead of
returning a value, and the requests issued are exactly the one create followed by at
most the one delete selected by `postId`; no delete is aimed at the new id (for a new
id different from `postId`), so the new post is not rolled back. -/
theorem updatePost_delete_fails_no_rollback (env : Env) (remote : Remote)
    (tr : List Request) (postId : Option String) (content : String) (isCompanyPost : Bool)
    (newPost : JsObj) (e : JsError)
    (hc : trim content ≠ "")
    (hcreate : (createPost env remote tr content isCompanyPost).result = .ok newPost)
    (hdelete : (deletePost remote (tr ++ [createRequest env content isCompanyPost])
        postId).result = .error e) :
    (∃ e', (updatePost env remote tr postId (some content) isCompanyPost).result = .error e')
    ∧ (updatePost env remote tr postId (some content) isCompanyPost).trace
        = tr ++ requestsAfterCreate env postId content isCompanyPost
    ∧ (requestsAfterCreate env postId content isCompanyPost).length ≤ 2
    ∧ (∀ path, Request.delete path ∈ requestsAfterCreate env postId content isCompanyPost →
        postId.bind deleteEndpoint = some path)
    ∧ (∀ newId path, getProp newPost "linkedInId" = .str newId → postId ≠ some newId →
        deleteEndpoint newId = some path →
        Request.delete path ∉ requestsAfterCreate env postId content isCompanyPost) := by
  have hmem : ∀ path, Request.delete path ∈ requestsAfterCreate env postId content isCompanyPost →
      postId.bind deleteEndpoint = some path := by
    intro path hp
    unfold requestsAfterCreate at hp
    cases hb : postId.bind deleteEndpoint with
    | none => simp [hb, createRequest] at hp
    | some ep =>
      simp [hb, createRequest] at hp
      rw [hp]
  refine ⟨?_, ?_, ?_, hmem, ?_⟩
  · rw [updatePost_nonblank env remote tr postId content isCompanyPost hc, hcreate]
    simp [hdelete, catchRethrow]
  · rw [updatePost_nonblank env remote tr postId content isCompanyPost hc, hcreate]
    simp only [hdelete, catchRethrow, deletePost_trace, requestsAfterCreate]
    cases postId.bind deleteEndpoint <;> simp
  · unfold requestsAfterCreate
    cases postId.bind deleteEndpoint <;> simp
  · intro newId path _ hne hpath hin
    have hsel := hmem path hin
    cases postId with
    | none => simp at hsel
    | some id =>
      have hid : deleteEndpoint id = some path := by simpa using hsel
      exact hne (congrArg some (deleteEndpoint_injective id newId path hid hpath))

/-- Witness for C5: the create is answered with id `urn:li:share:new1` and the delete
of `urn:li:share:5678` is rejected by the remote. -/
theorem updatePost_delete_fails_no_rollback_witness :
    (∃ e', (updatePost sampleEnv (rejectDeletes (.str "urn:li:share:new1") "Not found") []
        (some "urn:li:share:5678") (some "hello") false).result = .error e')
    ∧ (updatePost sampleEnv (rejectDeletes (.str "urn:li:share:new1") "Not found") []
        (some "urn:li:share:5678") (some "hello") false).trace
        = [] ++ requestsAfterCreate sampleEnv (some "urn:li:share:5678") "hello" false
    ∧ (requestsAfterCreate sampleEnv (some "urn:li:share:5678") "hello" false).length ≤ 2
    ∧ (∀ path, Request.delete path
          ∈ requestsAfterCreate sampleEnv (some "urn:li:share:5678") "hello" false →
        (some "urn:li:share:5678").bind deleteEndpoint = some path)
    ∧ (∀ newId path,
        getProp (createdResult (.str "urn:li:share:new1")) "linkedInId" = .str newId →
        some "urn:li:share:5678" ≠ some newId →
        deleteEndpoint newId = some path →
        Request.delete path
          ∉ requestsAfterCreate sampleEnv (some "urn:li:share:5678") "hello" false) :=
  updatePost_delete_fails_no_rollback sampleEnv
    (rejectDeletes (.str "urn:li:share:new1") "Not found") [] (some "urn:li:share:5678")
    "hello" false (createdResult (.str "urn:li:share:new1")) (newError "Not found")
    (by decide) rfl rfl

theorem deleteEndpoint_some_of_recognized (postId : String)
    (h : startsWith postId "urn:li:ugcPost:" = true
      ∨ startsWith postId "urn:li:share:" = true) :
    ∃ ep, deleteEndpoint postId = some ep := by
  by_cases h1 : startsWith postId "urn:li:ugcPost:" = true
  · exact ⟨"/ugcPosts/" ++ replace postId "urn:li:ugcPost:" "", by simp [deleteEndpoint, h1]⟩
  · have h2 : startsWith postId "urn:li:share:" = true := h.resolve_left h1
    exact ⟨"/shares/" ++ replace postId "urn:li:share:" "", by simp [deleteEndpoint, h1, h2]⟩

/-- C7: for every non-blank newContent and every postId with a recognized prefix,
when the remote fulfils the create with a body carrying the (non-empty) id `newId` and
fulfils the delete sent to the endpoint selected from postId, `updatePost` issues
exactly two requests in this order, the POST to `/ugcPosts` with the payload built from
newContent (text newContent, author the organization URN for a company post and the
person URN otherwise, lifecycle state PUBLISHED, media category NONE, visibility
PUBLIC) and then the DELETE to that endpoint, and returns `success = true` with
`newPostId = newId` and `deletedPostId = postId`. -/
theorem updatePost_success (env : Env) (remote : Remote) (tr : List Request)
    (postId content : String) (isCompanyPost : Bool) (data : JsObj) (newId : JsVal)
    (hc : trim content ≠ "")
    (hrecognized : startsWith postId "urn:li:ugcPost:" = true
      ∨ startsWith postId "urn:li:share:" = true)
    (hcreate : remote tr (Request.post "/ugcPosts" (buildPost env content isCompanyPost))
      = .ok { data := some data })
    (hid : getProp data "id" = newId) (htruthy : newId.truthy = true)
    (hdelete : ∀ ep, deleteEndpoint postId = some ep →
      ∃ resp, remote (tr ++ [Request.post "/ugcPosts" (buildPost env content isCompanyPost)])
        (Request.delete ep) = .ok resp) :
    ∃ ep, deleteEndpoint postId = some ep
      ∧ (updatePost env remote tr (some postId) (some content) isCompanyPost).trace
          = tr ++ [Request.post "/ugcPosts" (buildPost env content isCompanyPost),
              Request.delete ep]
      ∧ (updatePost env remote tr (some postId) (some content) isCompanyPost).trace
          = tr ++ [Request.post "/ugcPosts"
                { author :=
                    if isCompanyPost then
                      "urn:li:organization:" ++ interpolate env.LINKEDIN_COMPANY_ID
                    else "urn:li:person:" ++ interpolate env.LINKEDIN_USER_ID
                  lifecycleState := "PUBLISHED"
                  shareCommentaryText := content
                  shareMediaCategory := "NONE"
                  memberNetworkVisibility := "PUBLIC" },
              Request.delete ep]
      ∧ (buildPost env content isCompanyPost).shareCommentaryText = content
      ∧ (buildPost env content true).author
          = "urn:li:organization:" ++ interpolate env.LINKEDIN_COMPANY_ID
      ∧ (buildPost env content false).author
          = "urn:li:person:" ++ interpolate env.LINKEDIN_USER_ID
      ∧ ∃ v, (updatePost env remote tr (some postId) (some content) isCompanyPost).result
            = .ok v
          ∧ getProp v "success" = .bool true
          ∧ getProp v "newPostId" = newId
          ∧ getProp v "deletedPostId" = .str postId := by
  obtain ⟨ep, hep⟩ := deleteEndpoint_some_of_recognized postId hrecognized
  obtain ⟨resp, hresp⟩ := hdelete ep hep
  have hcr : (createPost env remote tr content isCompanyPost).result
      = .ok (createdResult (getProp data "id")) :=
    createPost_ok_of_id env remote tr content isCompanyPost data hcreate (hid ▸ htruthy)
  have hdl := deletePost_ok_of_endpoint remote
    (tr ++ [createRequest env content isCompanyPost]) postId ep resp hep hresp
  refine ⟨ep, hep, ?_⟩
  rw [updatePost_nonblank env remote tr (some postId) content isCompanyPost hc, hcr]
  simp only [hdl, catchRethrow, deletePost_trace]
  refine ⟨?_, ?_, ?_, ?_, ?_,
    updatedResult (getProp (createdResult (getProp data "id")) "linkedInId")
      (some postId), rfl, ?_, ?_, ?_⟩
  · simp [hep, createRequest]
  · simp [hep, createRequest, buildPost]
  · simp [buildPost]
  · simp [buildPost]
  · simp [buildPost]
  · simp [updatedResult, getProp, List.lookup]
  · simp [updatedResult, createdResult, getProp, List.lookup] at hid ⊢
    exact hid
  · simp [updatedResult, getProp, List.lookup, ofArg]

/-- Witness for C7: update of `urn:li:ugcPost:1234` as a company post against a remote
that accepts both calls and answers the create with `{ id: "urn:li:share:new1" }`: the
requests are the POST of the payload with text `hello again` authored by
`urn:li:organization:777`, then the DELETE to `/ugcPosts/1234`. -/
theorem updatePost_success_witness :
    (∃ ep, deleteEndpoint "urn:li:ugcPost:1234" = some ep
      ∧ (updatePost sampleEnv (acceptAll (.str "urn:li:share:new1")) []
            (some "urn:li:ugcPost:1234") (some "hello again") true).trace
          = [] ++ [Request.post "/ugcPosts" (buildPost sampleEnv "hello again" true),
              Request.delete ep]
      ∧ (updatePost sampleEnv (acceptAll (.str "urn:li:share:new1")) []
            (some "urn:li:ugcPost:1234") (some "hello again") true).trace
          = [] ++ [Request.post "/ugcPosts"
                { author :=
                    if true = true then
                      "urn:li:organization:" ++ interpolate sampleEnv.LINKEDIN_COMPANY_ID
                    else "urn:li:person:" ++ interpolate sampleEnv.LINKEDIN_USER_ID
                  lifecycleState := "PUBLISHED"
                  shareCommentaryText := "hello again"
                  shareMediaCategory := "NONE"
                  memberNetworkVisibility := "PUBLIC" },
              Request.delete ep]
      ∧ (buildPost sampleEnv "hello again" true).shareCommentaryText = "hello again"
      ∧ (buildPost sampleEnv "hello again" true).author
          = "urn:li:organization:" ++ interpolate sampleEnv.LINKEDIN_COMPANY_ID
      ∧ (buildPost sampleEnv "hello again" false).author
          = "urn:li:person:" ++ interpolate sampleEnv.LINKEDIN_USER_ID
      ∧ ∃ v, (updatePost sampleEnv (acceptAll (.str "urn:li:share:new1")) []
            (some "urn:li:ugcPost:1234") (some "hello again") true).result = .ok v
          ∧ getProp v "success" = .bool true
          ∧ getProp v "newPostId" = .str "urn:li:share:new1"
          ∧ getProp v "deletedPostId" = .str "urn:li:ugcPost:1234")
    ∧ (updatePost sampleEnv (acceptAll (.str "urn:li:share:new1")) []
          (some "urn:li:ugcPost:1234") (some "hello again") true).trace
        = [Request.post "/ugcPosts"
              { author := "urn:li:organization:777"
                lifecycleState := "PUBLISHED"
                shareCommentaryText := "hello again"
                shareMediaCategory := "NONE"
                memberNetworkVisibility := "PUBLIC" },
            Request.delete "/ugcPosts/1234"] :=
  ⟨updatePost_success sampleEnv (acceptAll (.str "urn:li:share:new1")) []
      "urn:li:ugcPost:1234" "hello again" true [("id", .str "urn:li:share:new1")]
      (.str "urn:li:share:new1") (by decide) (Or.inl (by decide)) rfl rfl (by decide)
      (fun _ _ => ⟨{ data := none }, rfl⟩),
    rfl⟩

/-! ## generateToken -/

/-- C9 (as stated, refuted): for the user `{id: "u1", email: "a@b.com", userName:
"alice"}` and a configured secret the signer is called once, and the `id` claim it
receives is undefined, not `"u1"`: the code reads the property `_id`. -/
theorem generateToken_reads_underscore_id :
    (generateToken sampleEnv sampleSign
        [("id", .str "u1"), ("email", .str "a@b.com"), ("userName", .str "alice")]).signCalls
      = [{ payload := [("id", .undefined), ("email", .str "a@b.com"),
            ("userName", .str "alice")],
           secret := "s3cret", expiresIn := "1d" }]
    ∧ (generateToken sampleEnv sampleSign
        [("id", .str "u1"), ("email", .str "a@b.com"), ("userName", .str "alice")]).signCalls
      ≠ [{ payload := [("id", .str "u1"), ("email", .str "a@b.com"),
            ("userName", .str "alice")],
           secret := "s3cret", expiresIn := "1d" }] := by
  constructor
  · rfl
  · decide

/-- C9 (amended): for every user record and every configured (non-empty) signing
secret, `generateToken` calls the signer exactly once, with that secret, the expiry
`1d`, and exactly the three claims `id`, `email` and `userName` taken from the user
record's `_id`, `email` and `userName`, and returns the signer's token; for the user
`{_id: "u1", email: "a@b.com", userName: "alice"}` the signed claims are
`{id: "u1", email: "a@b.com", userName: "alice"}`. -/
theorem generateToken_signs_three_claims (env : Env) (sign : SignCall → String)
    (user : JsObj) (secret : String)
    (hsecret : env.JWT_SECRET = some secret) (hne : secret ≠ "") :
    (generateToken env sign user).signCalls
      = [{ payload := [("id", getProp user "_id"), ("email", getProp user "email"),
            ("userName", getProp user "userName")],
           secret := secret, expiresIn := "1d" }]
    ∧ (generateToken env sign user).result
      = .ok (sign { payload := [("id", getProp user "_id"), ("email", getProp user "email"),
                      ("userName", getProp user "userName")],
                    secret := secret, expiresIn := "1d" })
    ∧ (generateToken env sign
        [("_id", .str "u1"), ("email", .str "a@b.com"), ("userName", .str "alice")]).signCalls
      = [{ payload := [("id", .str "u1"), ("email", .str "a@b.com"),
            ("userName", .str "alice")],
           secret := secret, expiresIn := "1d" }] := by
  refine ⟨?_, ?_, ?_⟩
  · simp [generateToken, hsecret, truthy_str, hne]
  · simp [generateToken, hsecret, truthy_str, hne]
  · simp [generateToken, hsecret, truthy_str, hne, getProp, List.lookup]

/-- Witness for C9 (amended): the user `{_id: "u1", email: "a@b.com", userName:
"alice"}` with the secret `s3cret`. -/
theorem generateToken_signs_three_claims_witness :
    (generateToken sampleEnv sampleSign
        [("_id", .str "u1"), ("email", .str "a@b.com"), ("userName", .str "alice")]).signCalls
      = [{ payload := [("id", .str "u1"), ("email", .str "a@b.com"),
            ("userName", .str "alice")],
           secret := "s3cret", expiresIn := "1d" }] :=
  (generateToken_signs_three_claims sampleEnv sampleSign
    [("_id", .str "u1"), ("email", .str "a@b.com"), ("userName", .str "alice")] "s3cret"
    rfl (by decide)).1

end LinkedinBot
